import Mathlib

/-!
# go-ase driver: handle lifecycle, deadlines and nullable values

A shallow embedding of `driver/driver.go`.  Every cgo call (`C.xxx`) of the
driver is recorded, in program order, in an explicit trace; the status a native
call returns is read from a script that the caller of the model chooses, so the
theorems hold for every behaviour of the native library.  The current time is
an explicit input.
-/

namespace GoAse

/-! ## The native side -/

/-- Constants of the vendor header `ctpublic.h`, which `driver.go` includes
through cgo.  The header is not part of the repository, so the constants are
parameters of the model. -/
structure CtPublic where
  CS_SUCCEED : Int
  CS_NULLTERM : Int
  CS_UNUSED : Int
  CS_SET : Int
  CS_USERNAME : Int
  CS_PASSWORD : Int
  CS_PREPARE : Int
  CS_DEALLOC : Int

/-- The values these constants have in the CT-Library headers
(`CS_SUCCEED` is 1, `CS_NULLTERM` is -9, `CS_UNUSED` is -99999). -/
def sybase : CtPublic where
  CS_SUCCEED := 1
  CS_NULLTERM := -9
  CS_UNUSED := -99999
  CS_SET := 34
  CS_USERNAME := 9100
  CS_PASSWORD := 9101
  CS_PREPARE := 717
  CS_DEALLOC := 711

/-- Pointers handed to native code. -/
inductive CPtr where
  /-- The nil pointer; also the value of a declared but unassigned handle. -/
  | null
  /-- A native handle (`*C.CS_CONTEXT`, `*C.CS_CONNECTION`, `*C.CS_COMMAND`). -/
  | handle (id : Nat)
  /-- The buffer `C.CString s` returns: a C copy of `s`. -/
  | cstr (s : String)
  /-- The address `&s` of a Go string variable holding `s`. -/
  | goString (s : String)
  deriving DecidableEq, Repr

/-- One cgo call with its arguments, as written in `driver.go`. -/
inductive Call where
  | CString (s : String)
  | free (p : CPtr)
  | ct_con_alloc (context : CPtr)
  | ct_con_props (connection : CPtr) (action property : Int) (buffer : CPtr)
      (buflen : Int) (outlen : CPtr)
  | ct_connect (connection : CPtr) (server_name : CPtr) (snamelen : Int)
  | ct_close (connection : CPtr) (option : Int)
  | ct_con_drop (connection : CPtr)
  | ct_dynamic (cmd : CPtr) (type : Int) (id : CPtr) (idlen : Int) (buffer : CPtr)
      (buflen : Int)
  deriving DecidableEq, Repr

/-- The native library together with the calls made so far.  `rcs k` is the
status returned by a call made when `k` calls are already in the trace and
`out k` is the handle such a call stores through its out parameter. -/
structure Native where
  rcs : Nat → Int
  out : Nat → CPtr
  trace : List Call

/-- Append a call to the trace. -/
def Native.record (w : Native) (c : Call) : Native :=
  { w with trace := w.trace ++ [c] }

/-- A native call returning a status. -/
def Native.call (w : Native) (c : Call) : Int × Native :=
  (w.rcs w.trace.length, w.record c)

/-- Definition of `C.CString(s)`. -/
def C.CString (w : Native) (s : String) : CPtr × Native :=
  (CPtr.cstr s, w.record (Call.CString s))

/-- Definition of `C.free(p)`. -/
def C.free (w : Native) (p : CPtr) : Native :=
  w.record (Call.free p)

/-- Definition of `C.ct_con_alloc(context, &connection)`: the status and the handle
stored in `connection`. -/
def C.ct_con_alloc (w : Native) (context : CPtr) : Int × CPtr × Native :=
  (w.rcs w.trace.length, w.out w.trace.length, w.record (Call.ct_con_alloc context))

/-! ## Connections -/

/-- Modelled from the spec: the record `parseDSN` yields (section 6, DSN); the
parser and this type live in a file of the package that is not available. -/
structure DsnInfo where
  Host : String
  Username : String
  Password : String
  Database : String
  deriving DecidableEq, Repr

/-- Go's `error`: `none` is `nil`, `some msg` is `errors.New(msg)`. -/
abbrev error := Option String

/-- The struct `connection`. -/
structure connection where
  conn : CPtr
  deriving DecidableEq, Repr

/-- The struct `statement`. -/
structure statement where
  query : String
  stmt : CPtr
  conn : CPtr
  Ok : Bool
  deriving DecidableEq, Repr

/-- Translation of `(d *drv) Open`.  `parseDSN` is the package's DSN parser and
`cContext` the package variable set up by `init`.  The two deferred `C.free`
calls run, last registered first, on every return after their registration. -/
def drv.Open (hdr : CtPublic) (parseDSN : String → Except String DsnInfo) (cContext : CPtr)
    (w : Native) (dsn : String) : Except String connection × Native :=
  match parseDSN dsn with
  | .error err => (.error err, w)
  | .ok dsnInfo =>
    -- create connection
    let (rc, cConnection, w) := C.ct_con_alloc w cContext
    if rc ≠ hdr.CS_SUCCEED then
      (.error "C.ct_con_alloc failed", w)
    else
      -- set user name
      let cUsername := CPtr.goString dsnInfo.Username
      let (rc, w) := w.call (Call.ct_con_props cConnection hdr.CS_SET hdr.CS_USERNAME
        cUsername hdr.CS_NULLTERM CPtr.null)
      if rc ≠ hdr.CS_SUCCEED then
        (.error "C.ct_con_props failed for C.CS_USERNAME", C.free w cUsername)
      else
        -- set password
        let cPassword := CPtr.goString dsnInfo.Password
        let (rc, w) := w.call (Call.ct_con_props cConnection hdr.CS_SET hdr.CS_PASSWORD
          cPassword hdr.CS_NULLTERM CPtr.null)
        if rc ≠ hdr.CS_SUCCEED then
          (.error "C.ct_con_props failed for C.CS_PASSWORD",
            C.free (C.free w cPassword) cUsername)
        else
          -- connect
          let (cHostname, w) := C.CString w dsnInfo.Host
          let cNullterm : Int := if dsnInfo.Host ≠ "" then 0 else hdr.CS_NULLTERM
          let (rc, w) := w.call (Call.ct_connect cConnection cHostname cNullterm)
          if rc ≠ hdr.CS_SUCCEED then
            (.error "C.ct_connect failed", C.free (C.free w cPassword) cUsername)
          else
            -- return connection
            (.ok { conn := cConnection }, C.free (C.free w cPassword) cUsername)

/-- Translation of `(connection *connection) Prepare`.  The command pointer
`cPreparedStatement` is declared and never assigned, so it is nil. -/
def connection.Prepare (hdr : CtPublic) (w : Native) (connection : connection)
    (query : String) : Except String statement × Native :=
  let (psql, w) := C.CString w query
  let (name, w) := C.CString w "myquery"
  let cPreparedStatement := CPtr.null
  let (rc, w) := w.call (Call.ct_dynamic cPreparedStatement hdr.CS_PREPARE name
    hdr.CS_NULLTERM psql hdr.CS_NULLTERM)
  if rc ≠ hdr.CS_SUCCEED then
    (.error "C.ct_dynamic failed", C.free (C.free w name) psql)
  else
    (.ok { query := query, stmt := cPreparedStatement, conn := connection.conn, Ok := false },
      C.free (C.free w name) psql)

/-- Translation of `(connection *connection) Close`. -/
def connection.Close (hdr : CtPublic) (w : Native) (connection : connection) :
    error × Native :=
  let (rc, w) := w.call (Call.ct_close connection.conn hdr.CS_UNUSED)
  if rc ≠ hdr.CS_SUCCEED then
    (some "C.ct_close failed", w)
  else
    let (rc, w) := w.call (Call.ct_con_drop connection.conn)
    if rc ≠ hdr.CS_SUCCEED then
      (some "C.ct_con_drop failed", w)
    else
      (none, w)

/-- Translation of `(statement *statement) Close`. -/
def statement.Close (hdr : CtPublic) (w : Native) (statement : statement) :
    error × Native :=
  let (name, w) := C.CString w "myquery"
  let (rc, w) := w.call (Call.ct_dynamic statement.stmt hdr.CS_DEALLOC name
    hdr.CS_NULLTERM CPtr.null hdr.CS_UNUSED)
  if rc ≠ hdr.CS_SUCCEED then
    (some "C.ct_dynamic failed", C.free w name)
  else
    (none, C.free w name)

/-! ## Host values -/

/-- Model of the standard library's `time.Time`: an instant as whole seconds since
January 1 of year 1 (UTC) plus nanoseconds within the second, and the location
pointer (`0` is nil).  The zero value of the Go struct is the all-zero record.
Monotonic clock readings are not modelled. -/
structure Time where
  sec : Int
  nsec : Int
  loc : Nat
  deriving DecidableEq, Repr

/-- The zero value `time.Time{}`. -/
def Time.zero : Time := { sec := 0, nsec := 0, loc := 0 }

/-- Model of `time.Duration`: a count of nanoseconds in an `int64`. -/
abbrev Duration := Int

/-- The constant `time.Second`. -/
def Second : Duration := 1000000000

/-- The constant `minDuration` of package `time`. -/
def minDuration : Duration := -(2 ^ 63)

/-- The constant `maxDuration` of package `time`. -/
def maxDuration : Duration := 2 ^ 63 - 1

/-- Model of `t.Sub(u)`: the difference in nanoseconds, saturated to the range of
`Duration`. -/
def Time.Sub (t u : Time) : Duration :=
  let d := (t.sec - u.sec) * Second + (t.nsec - u.nsec)
  if d < minDuration then minDuration else if maxDuration < d then maxDuration else d

/-- Model of `d.Seconds()`. Go computes `float64(d / Second) + float64(d % Second) / 1e9`;
the same expression is evaluated here over the rationals, without rounding. -/
def Duration.Seconds (d : Duration) : Rat :=
  (Int.tdiv d Second : Rat) + (Int.tmod d Second : Rat) / 1000000000

/-- One byte. -/
abbrev Byte := Fin 256

/-- Modelled from the spec: the arbitrary-precision decimal of the `types`
package used by the tests, "a textual decimal string plus precision/scale"
(section 4.3). -/
structure Decimal where
  text : String
  precision : Nat
  scale : Nat
  deriving DecidableEq, Repr

/-- A Go interface value (`interface{}`, `driver.Value`), by dynamic type.  A
`[]byte` is `none` when it is the nil slice.  A `float64` is given by its bit
pattern.  `other` stands for a value of any dynamic type not listed, named by
its type. -/
inductive driver.Value where
  | nil
  | int64 (i : Int)
  | float64 (bits : Nat)
  | bool (b : Bool)
  | bytes (b : Option (List Byte))
  | string (s : String)
  | time (t : Time)
  | decimal (d : Decimal)
  | other (typeName : String)
  deriving DecidableEq, Repr

/-- The type assertion `value.(time.Time)` in its two-result form: the value and
`true` when the dynamic type is `time.Time`, else the zero value and `false`. -/
def driver.Value.assertTime : driver.Value → Time × Bool
  | .time t => (t, true)
  | _ => (Time.zero, false)

/-- The type assertion `value.([]byte)` in its two-result form: the zero value of
`[]byte` is the nil slice. -/
def driver.Value.assertBytes : driver.Value → Option (List Byte) × Bool
  | .bytes b => (b, true)
  | _ => (none, false)

/-- The struct `driver.NamedValue` of `database/sql/driver`. -/
structure driver.NamedValue where
  Name : String
  Ordinal : Int
  Value : driver.Value
  deriving DecidableEq, Repr

/-- Model of `context.Context`, reduced to what `Deadline()` reports. -/
structure Context where
  deadline : Option Time
  deriving DecidableEq, Repr

/-- Model of `ctx.Deadline()`. -/
def Context.Deadline (ctx : Context) : Time × Bool :=
  match ctx.deadline with
  | some d => (d, true)
  | none => (Time.zero, false)

/-! ## Statements, results and rows -/

/-- The struct `rows`. -/
structure rows where
  stmt : CPtr
  conn : CPtr
  deriving DecidableEq, Repr

/-- The struct `result`. -/
structure result where
  stmt : CPtr
  conn : CPtr
  deriving DecidableEq, Repr

/-- Translation of `(rows *rows) Columns`: `make([]string, 1)`. -/
def rows.Columns (_rows : rows) : List String := [""]

/-- Translation of `(rows *rows) Next`: the error returned and the contents of
`dest` afterwards.  The body only returns nil. -/
def rows.Next (_rows : rows) (dest : List driver.Value) : error × List driver.Value :=
  (none, dest)

/-- Translation of `(rows *rows) HasNextResultSet`. -/
def rows.HasNextResultSet (_rows : rows) : Bool := true

/-- Translation of `(statement *statement) Exec`. -/
def statement.Exec (statement : statement) (_args : List driver.Value) :
    Except String result :=
  .ok { stmt := statement.stmt, conn := statement.conn }

/-- Translation of `(statement *statement) Query`. -/
def statement.Query (statement : statement) (_args : List driver.Value) :
    Except String rows :=
  .ok { stmt := statement.stmt, conn := statement.conn }

/-- Translation of `setTimeout`. -/
def setTimeout (_statement : statement) (_timeout : Rat) : error :=
  none

/-- Translation of `(statement *statement) ExecContext`; `now` is the value of
`time.Now()`. -/
def statement.ExecContext (statement : statement) (now : Time) (ctx : Context)
    (args : List driver.NamedValue) : Except String result :=
  let value := args.map (fun a => a.Value)
  let (deadline, ok) := ctx.Deadline
  if !ok then
    statement.Exec value
  else
    match setTimeout statement (Duration.Seconds (deadline.Sub now)) with
    | some err => .error err
    | none => statement.Exec value

/-- Translation of `(statement *statement) QueryContext`; `now` is the value of
`time.Now()`. -/
def statement.QueryContext (statement : statement) (now : Time) (ctx : Context)
    (args : List driver.NamedValue) : Except String rows :=
  let value := args.map (fun a => a.Value)
  let (deadline, ok) := ctx.Deadline
  if !ok then
    statement.Query value
  else
    match setTimeout statement (Duration.Seconds (deadline.Sub now)) with
    | some err => .error err
    | none => statement.Query value

/-- Translation of `(result *result) LastInsertId`. -/
def result.LastInsertId (_result : result) : Int × error :=
  (-1, some "Feature not supported")

/-- Translation of `(result *result) RowsAffected`. -/
def result.RowsAffected (_result : result) : Int × error :=
  (0, none)

/-! ## Nullable values -/

/-- The struct `NullTime`. -/
structure NullTime where
  Time : GoAse.Time
  Valid : Bool
  deriving DecidableEq, Repr

/-- The struct `NullBytes`. -/
structure NullBytes where
  Bytes : Option (List Byte)
  Valid : Bool
  deriving DecidableEq, Repr

/-- Translation of `(nullTime *NullTime) Scan`: the error returned and the
receiver afterwards. -/
def NullTime.Scan (_nullTime : NullTime) (value : driver.Value) : error × NullTime :=
  let (t, ok) := value.assertTime
  (none, { Time := t, Valid := ok })

/-- Translation of `(nullTime NullTime) Value`. -/
def NullTime.Value (nullTime : NullTime) : driver.Value × error :=
  if !nullTime.Valid then
    (driver.Value.nil, none)
  else
    (driver.Value.time nullTime.Time, none)

/-- Translation of `(nullBytes *NullBytes) Scan`: the error returned and the
receiver afterwards. -/
def NullBytes.Scan (_nullBytes : NullBytes) (value : driver.Value) : error × NullBytes :=
  let (b, ok) := value.assertBytes
  (none, { Bytes := b, Valid := ok })

/-- Translation of `(nullBytes NullBytes) Value`. -/
def NullBytes.Value (nullBytes : NullBytes) : driver.Value × error :=
  if !nullBytes.Valid then
    (driver.Value.nil, none)
  else
    (driver.Value.bytes nullBytes.Bytes, none)

/-! ## Sample connection records -/

/-- The record for the DSN `user=sa password=secret host=tcp:db.example:5000` of
section 8, scenario 1. -/
def dsnHost : DsnInfo :=
  { Host := "tcp:db.example:5000", Username := "sa", Password := "secret", Database := "" }

/-- The record for the DSN `user=sa password=secret`, which names no host. -/
def dsnDirectory : DsnInfo :=
  { Host := "", Username := "sa", Password := "secret", Database := "" }

/-- A native library on which every call returns `CS_SUCCEED` of `sybase` and every
allocation yields handle 2; no call made yet. -/
def nativeAllSucceed : Native :=
  { rcs := fun _ => 1, out := fun _ => CPtr.handle 2, trace := [] }

/-! ## The smallmoney samples of the test suite -/

/-- Modelled from the spec: the sample decimals of `testMoney4` (section 8,
scenario 3); the list `samplesMoney4` is declared in a file of the test package
that is not available.  A `smallmoney` has precision 10 and scale 4. -/
def samplesMoney4 : List Decimal :=
  [{ text := "0", precision := 10, scale := 4 },
   { text := "0.0001", precision := 10, scale := 4 },
   { text := "-214748.3648", precision := 10, scale := 4 },
   { text := "214748.3647", precision := 10, scale := 4 }]

/-! ## Nullable values: scanning and producing host values -/

/-- C5. Scanning a timestamp `t` into a `NullTime` in any prior state returns no
error and leaves `(Time = t, Valid = true)`; scanning nil returns no error and
leaves `Valid = false`.  The same holds for `NullBytes` and every byte
sequence `b` (the nil slice included). -/
theorem Scan_contract :
    (∀ (n : NullTime) (t : Time),
        n.Scan (driver.Value.time t) = (none, { Time := t, Valid := true })) ∧
    (∀ n : NullTime,
        (n.Scan driver.Value.nil).1 = none ∧ (n.Scan driver.Value.nil).2.Valid = false) ∧
    (∀ (n : NullBytes) (b : Option (List Byte)),
        n.Scan (driver.Value.bytes b) = (none, { Bytes := b, Valid := true })) ∧
    (∀ n : NullBytes,
        (n.Scan driver.Value.nil).1 = none ∧ (n.Scan driver.Value.nil).2.Valid = false) :=
  ⟨fun _ _ => rfl, fun _ => ⟨rfl, rfl⟩, fun _ _ => rfl, fun _ => ⟨rfl, rfl⟩⟩

/-- C6. Scan followed by Value gives back the scanned host value with no error:
for a `NullTime` in any prior state and a timestamp or nil, and for a
`NullBytes` and a byte sequence or nil.  A wrapper with `Valid = false`
produces nil whatever its value slot holds. -/
theorem Scan_Value_round_trip :
    (∀ (n : NullTime) (t : Time),
        (n.Scan (driver.Value.time t)).2.Value = (driver.Value.time t, none)) ∧
    (∀ n : NullTime, (n.Scan driver.Value.nil).2.Value = (driver.Value.nil, none)) ∧
    (∀ t : Time, NullTime.Value { Time := t, Valid := false } = (driver.Value.nil, none)) ∧
    (∀ (n : NullBytes) (b : Option (List Byte)),
        (n.Scan (driver.Value.bytes b)).2.Value = (driver.Value.bytes b, none)) ∧
    (∀ n : NullBytes, (n.Scan driver.Value.nil).2.Value = (driver.Value.nil, none)) ∧
    (∀ b : Option (List Byte),
        NullBytes.Value { Bytes := b, Valid := false } = (driver.Value.nil, none)) :=
  ⟨fun _ _ => rfl, fun _ => rfl, fun _ => rfl, fun _ _ => rfl, fun _ => rfl, fun _ => rfl⟩

/-- C10. Scan never reports a type mismatch.  A host value `v` that is neither a
timestamp nor nil scans into a `NullTime` with no error, `Valid = false` and the
zero timestamp; a host value `u` that is not a byte sequence scans into a
`NullBytes` with no error, `Valid = false` and the nil slice. -/
theorem Scan_type_mismatch (nt : NullTime) (nb : NullBytes) (v u : driver.Value)
    (hv : ∀ t, v ≠ driver.Value.time t) (hnil : v ≠ driver.Value.nil)
    (hu : ∀ b, u ≠ driver.Value.bytes b) :
    nt.Scan v = (none, { Time := Time.zero, Valid := false }) ∧
    nb.Scan u = (none, { Bytes := none, Valid := false }) := by
  constructor
  · cases v with
    | time t => exact absurd rfl (hv t)
    | _ => rfl
  · cases u with
    | bytes b => exact absurd rfl (hu b)
    | _ => rfl

/-- C10 at a string scanned into a valid `NullTime` and an integer scanned into a
valid `NullBytes`. -/
theorem Scan_type_mismatch_witness :
    NullTime.Scan { Time := { sec := 5, nsec := 0, loc := 0 }, Valid := true }
        (driver.Value.string "2020-01-01") = (none, { Time := Time.zero, Valid := false }) ∧
    NullBytes.Scan { Bytes := some [1, 2], Valid := true } (driver.Value.int64 42) =
        (none, { Bytes := none, Valid := false }) :=
  Scan_type_mismatch _ _ (driver.Value.string "2020-01-01") (driver.Value.int64 42)
    (fun _ h => driver.Value.noConfusion h) (fun h => driver.Value.noConfusion h)
    (fun _ h => driver.Value.noConfusion h)

/-! ## Results -/

/-- C7. For every statement and argument list `Exec` returns a result; that
result answers `LastInsertId` with the error "Feature not supported" and
`RowsAffected` with a non-negative integer and no error. -/
theorem Exec_result_contract (s : statement) (args : List driver.Value) :
    ∃ r : result, s.Exec args = .ok r ∧
      r.LastInsertId.2 = some "Feature not supported" ∧
      r.RowsAffected.2 = none ∧ 0 ≤ r.RowsAffected.1 :=
  ⟨{ stmt := s.stmt, conn := s.conn }, rfl, rfl, rfl, Int.le_refl 0⟩

/-! ## Deadlines -/

/-- C8, as stated, fails: with a deadline one second before the current time,
`ExecContext` and `QueryContext` do not fail; they return a result and a cursor. -/
theorem Context_past_deadline_not_rejected :
    Time.Sub { sec := 99, nsec := 0, loc := 0 } { sec := 100, nsec := 0, loc := 0 } ≤ 0 ∧
    statement.ExecContext
        { query := "INSERT INTO t VALUES (?)", stmt := CPtr.null, conn := CPtr.handle 1,
          Ok := false }
        { sec := 100, nsec := 0, loc := 0 }
        { deadline := some { sec := 99, nsec := 0, loc := 0 } }
        [{ Name := "", Ordinal := 1, Value := driver.Value.int64 42 }]
      = .ok { stmt := CPtr.null, conn := CPtr.handle 1 } ∧
    statement.QueryContext
        { query := "SELECT ?", stmt := CPtr.null, conn := CPtr.handle 1, Ok := false }
        { sec := 100, nsec := 0, loc := 0 }
        { deadline := some { sec := 99, nsec := 0, loc := 0 } }
        [{ Name := "", Ordinal := 1, Value := driver.Value.int64 42 }]
      = .ok { stmt := CPtr.null, conn := CPtr.handle 1 } := by
  refine ⟨by decide, rfl, rfl⟩

/-- C8, amended. When the deadline of the context is not after the current time
(zero or negative remainder), `ExecContext` returns what `Exec` returns on the
argument values, a result and no error, and `QueryContext` returns what `Query`
returns, a cursor and no error: `setTimeout` accepts every remainder. -/
theorem Context_past_deadline_runs (s : statement) (now : Time) (ctx : Context)
    (args : List driver.NamedValue) (d : Time) (hd : ctx.Deadline = (d, true))
    (_hpast : d.Sub now ≤ 0) :
    s.ExecContext now ctx args = s.Exec (args.map (fun a => a.Value)) ∧
    s.ExecContext now ctx args = .ok { stmt := s.stmt, conn := s.conn } ∧
    s.QueryContext now ctx args = s.Query (args.map (fun a => a.Value)) ∧
    s.QueryContext now ctx args = .ok { stmt := s.stmt, conn := s.conn } := by
  simp [statement.ExecContext, statement.QueryContext, hd, setTimeout, statement.Exec,
    statement.Query]

/-- C8 amended, at a deadline half a second before the current time. -/
theorem Context_past_deadline_runs_witness :
    statement.ExecContext
        { query := "UPDATE t SET a = 1", stmt := CPtr.null, conn := CPtr.handle 3, Ok := false }
        { sec := 10, nsec := 500000000, loc := 0 }
        { deadline := some { sec := 10, nsec := 0, loc := 0 } } []
      = .ok { stmt := CPtr.null, conn := CPtr.handle 3 } :=
  (Context_past_deadline_runs
    { query := "UPDATE t SET a = 1", stmt := CPtr.null, conn := CPtr.handle 3, Ok := false }
    { sec := 10, nsec := 500000000, loc := 0 }
    { deadline := some { sec := 10, nsec := 0, loc := 0 } } []
    { sec := 10, nsec := 0, loc := 0 } rfl (by decide)).2.1

/-! ## Rows -/

/-- C9, evaluated on the code at the samples of `testMoney4`: the insert and the
query succeed, and `Next` on the cursor reports a row without storing anything
in `dest`: the single column is still nil afterwards, which is none of the
samples, and a further `Next` reports yet another row. -/
theorem money4_Next_stores_nothing :
    ∃ (r : result) (rs : rows),
      statement.Exec
          { query := "insert into money4 values (?, ?, ?, ?)", stmt := CPtr.null,
            conn := CPtr.handle 1, Ok := false }
          (samplesMoney4.map driver.Value.decimal) = .ok r ∧
      statement.Query
          { query := "select * from money4", stmt := CPtr.null, conn := CPtr.handle 1,
            Ok := false } [] = .ok rs ∧
      rs.Columns.length = 1 ∧
      rs.Next [driver.Value.nil] = (none, [driver.Value.nil]) ∧
      (∀ d ∈ samplesMoney4, (rs.Next [driver.Value.nil]).2 ≠ [driver.Value.decimal d]) ∧
      rs.Next (rs.Next [driver.Value.nil]).2 = (none, [driver.Value.nil]) :=
  ⟨{ stmt := CPtr.null, conn := CPtr.handle 1 }, { stmt := CPtr.null, conn := CPtr.handle 1 },
    rfl, rfl, rfl, rfl, fun _ _ h => driver.Value.noConfusion (List.head_eq_of_cons_eq h), rfl⟩

/-! ## Closing a connection -/

/-- C1, as stated, fails: when `ct_close` returns a status other than
`CS_SUCCEED` (here 0), `Close` makes no call of `ct_con_drop`; the trace ends
with `ct_close`. -/
theorem Close_failed_close_skips_drop :
    (connection.Close sybase { rcs := fun _ => 0, out := fun _ => CPtr.null, trace := [] }
        { conn := CPtr.handle 7 }).1 = some "C.ct_close failed" ∧
    (connection.Close sybase { rcs := fun _ => 0, out := fun _ => CPtr.null, trace := [] }
        { conn := CPtr.handle 7 }).2.trace = [Call.ct_close (CPtr.handle 7) (-99999)] ∧
    Call.ct_con_drop (CPtr.handle 7) ∉
      (connection.Close sybase { rcs := fun _ => 0, out := fun _ => CPtr.null, trace := [] }
        { conn := CPtr.handle 7 }).2.trace := by
  decide

/-- C1, amended. For every status `ct_close` returns, `Close` calls
`ct_con_drop` on the same handle afterwards exactly when that status is
`CS_SUCCEED`, and makes no other call; the error `Close` returns is that of the
first step that did not succeed, and nil when both steps ran and succeeded.
The status of `ct_close` is `w.rcs w.trace.length`, that of `ct_con_drop` is
`w.rcs (w.trace.length + 1)`. -/
theorem Close_trace_and_error (hdr : CtPublic) (w : Native) (c : connection) :
    (connection.Close hdr w c).2.trace =
        w.trace ++ Call.ct_close c.conn hdr.CS_UNUSED ::
          (if w.rcs w.trace.length = hdr.CS_SUCCEED then [Call.ct_con_drop c.conn] else []) ∧
    (connection.Close hdr w c).1 =
        (if w.rcs w.trace.length ≠ hdr.CS_SUCCEED then some "C.ct_close failed"
         else if w.rcs (w.trace.length + 1) ≠ hdr.CS_SUCCEED then some "C.ct_con_drop failed"
         else none) := by
  by_cases h1 : w.rcs w.trace.length = hdr.CS_SUCCEED
  · by_cases h2 : w.rcs (w.trace.length + 1) = hdr.CS_SUCCEED
    · simp [connection.Close, Native.call, Native.record, h1, h2]
    · simp [connection.Close, Native.call, Native.record, h1, h2]
  · simp [connection.Close, Native.call, Native.record, h1]

/-! ## Opening a connection -/

/-- C2, evaluated on the code where the DSN parses, `ct_con_alloc` succeeds and
setting the user name fails: `Open` returns the error of that step, and the
trace holds the allocation, the failing `ct_con_props` and the deferred `free`,
with no `ct_con_drop` of the allocated handle. -/
theorem Open_failure_leaves_handle :
    (drv.Open sybase (fun _ => .ok dsnDirectory) (CPtr.handle 1)
        { rcs := fun k => if k = 0 then 1 else 0, out := fun _ => CPtr.handle 2, trace := [] }
        "user=sa password=secret").1 = .error "C.ct_con_props failed for C.CS_USERNAME" ∧
    (drv.Open sybase (fun _ => .ok dsnDirectory) (CPtr.handle 1)
        { rcs := fun k => if k = 0 then 1 else 0, out := fun _ => CPtr.handle 2, trace := [] }
        "user=sa password=secret").2.trace =
      [Call.ct_con_alloc (CPtr.handle 1),
       Call.ct_con_props (CPtr.handle 2) 34 9100 (CPtr.goString "sa") (-9) CPtr.null,
       Call.free (CPtr.goString "sa")] ∧
    Call.ct_con_drop (CPtr.handle 2) ∉
      (drv.Open sybase (fun _ => .ok dsnDirectory) (CPtr.handle 1)
        { rcs := fun k => if k = 0 then 1 else 0, out := fun _ => CPtr.handle 2, trace := [] }
        "user=sa password=secret").2.trace := by
  refine ⟨rfl, ?_, ?_⟩ <;> decide

/-- What `Open` does on every failure after the allocation.  For every DSN that
parses and every assignment of statuses in which `ct_con_alloc` succeeds and one
of the later steps (set user name, set password, connect) fails, `Open` returns
the error naming the first failing step, and the calls it made are the
allocation, the steps up to the failing one and the deferred `free` calls:
there is no `ct_con_drop` among them.  With
`k = w.trace.length`, the statuses of the four native steps are `w.rcs k`,
`w.rcs (k + 1)`, `w.rcs (k + 2)` and `w.rcs (k + 4)` (call `k + 3` is the
`C.CString` of the host). -/
theorem Open_failure_error_and_trace (hdr : CtPublic)
    (parseDSN : String → Except String DsnInfo) (cContext : CPtr) (w : Native) (dsn : String)
    (dsnInfo : DsnInfo) (hparse : parseDSN dsn = .ok dsnInfo)
    (halloc : w.rcs w.trace.length = hdr.CS_SUCCEED)
    (hfail : ¬ (w.rcs (w.trace.length + 1) = hdr.CS_SUCCEED ∧
                w.rcs (w.trace.length + 2) = hdr.CS_SUCCEED ∧
                w.rcs (w.trace.length + 4) = hdr.CS_SUCCEED)) :
    (drv.Open hdr parseDSN cContext w dsn).1 =
        .error (if w.rcs (w.trace.length + 1) ≠ hdr.CS_SUCCEED then
                  "C.ct_con_props failed for C.CS_USERNAME"
                else if w.rcs (w.trace.length + 2) ≠ hdr.CS_SUCCEED then
                  "C.ct_con_props failed for C.CS_PASSWORD"
                else "C.ct_connect failed") ∧
    (drv.Open hdr parseDSN cContext w dsn).2.trace =
        w.trace ++
          (Call.ct_con_alloc cContext ::
           Call.ct_con_props (w.out w.trace.length) hdr.CS_SET hdr.CS_USERNAME
             (CPtr.goString dsnInfo.Username) hdr.CS_NULLTERM CPtr.null ::
           (if w.rcs (w.trace.length + 1) ≠ hdr.CS_SUCCEED then
              [Call.free (CPtr.goString dsnInfo.Username)]
            else
              Call.ct_con_props (w.out w.trace.length) hdr.CS_SET hdr.CS_PASSWORD
                (CPtr.goString dsnInfo.Password) hdr.CS_NULLTERM CPtr.null ::
              (if w.rcs (w.trace.length + 2) ≠ hdr.CS_SUCCEED then
                 [Call.free (CPtr.goString dsnInfo.Password),
                  Call.free (CPtr.goString dsnInfo.Username)]
               else
                 [Call.CString dsnInfo.Host,
                  Call.ct_connect (w.out w.trace.length) (CPtr.cstr dsnInfo.Host)
                    (if dsnInfo.Host ≠ "" then 0 else hdr.CS_NULLTERM),
                  Call.free (CPtr.goString dsnInfo.Password),
                  Call.free (CPtr.goString dsnInfo.Username)]))) ∧
    (∀ p : CPtr, Call.ct_con_drop p ∉
        (drv.Open hdr parseDSN cContext w dsn).2.trace.drop w.trace.length) := by
  by_cases h1 : w.rcs (w.trace.length + 1) = hdr.CS_SUCCEED
  · by_cases h2 : w.rcs (w.trace.length + 2) = hdr.CS_SUCCEED
    · have h3 : w.rcs (w.trace.length + 4) ≠ hdr.CS_SUCCEED := fun h => hfail ⟨h1, h2, h⟩
      simp [drv.Open, hparse, C.ct_con_alloc, C.CString, C.free, Native.call, Native.record,
        halloc, h1, h2, h3]
    · simp [drv.Open, hparse, C.ct_con_alloc, C.CString, C.free, Native.call, Native.record,
        halloc, h1, h2]
  · simp [drv.Open, hparse, C.ct_con_alloc, C.CString, C.free, Native.call, Native.record,
      halloc, h1]

/-- The failure path of `Open` at a DSN whose password is rejected. -/
theorem Open_failure_error_and_trace_witness :
    (drv.Open sybase (fun _ => .ok dsnHost) (CPtr.handle 1)
        { rcs := fun k => if k < 2 then 1 else 0, out := fun _ => CPtr.handle 2, trace := [] }
        "user=sa password=secret host=tcp:db.example:5000").1 =
      .error "C.ct_con_props failed for C.CS_PASSWORD" :=
  (Open_failure_error_and_trace sybase
    (fun _ => .ok dsnHost) (CPtr.handle 1)
    { rcs := fun k => if k < 2 then 1 else 0, out := fun _ => CPtr.handle 2, trace := [] }
    "user=sa password=secret host=tcp:db.example:5000"
    dsnHost rfl (by decide) (by decide)).1

/-- C3, evaluated on the code at a DSN with a host and every native status
`CS_SUCCEED`: `Open` succeeds, and `ct_connect` is called with the host string
and the length 0, not with `CS_NULLTERM` (which is -9).  At a DSN without a
host it is the empty string that is passed with `CS_NULLTERM`. -/
theorem Open_host_connect_length_zero :
    (drv.Open sybase (fun _ => .ok dsnHost) (CPtr.handle 1)
        { rcs := fun _ => 1, out := fun _ => CPtr.handle 2, trace := [] }
        "user=sa password=secret host=tcp:db.example:5000").1 =
      .ok { conn := CPtr.handle 2 } ∧
    (drv.Open sybase (fun _ => .ok dsnHost) (CPtr.handle 1)
        { rcs := fun _ => 1, out := fun _ => CPtr.handle 2, trace := [] }
        "user=sa password=secret host=tcp:db.example:5000").2.trace =
      [Call.ct_con_alloc (CPtr.handle 1),
       Call.ct_con_props (CPtr.handle 2) 34 9100 (CPtr.goString "sa") (-9) CPtr.null,
       Call.ct_con_props (CPtr.handle 2) 34 9101 (CPtr.goString "secret") (-9) CPtr.null,
       Call.CString "tcp:db.example:5000",
       Call.ct_connect (CPtr.handle 2) (CPtr.cstr "tcp:db.example:5000") 0,
       Call.free (CPtr.goString "secret"),
       Call.free (CPtr.goString "sa")] ∧
    (0 : Int) ≠ sybase.CS_NULLTERM ∧
    (drv.Open sybase (fun _ => .ok dsnDirectory) (CPtr.handle 1)
        { rcs := fun _ => 1, out := fun _ => CPtr.handle 2, trace := [] }
        "user=sa password=secret").2.trace =
      [Call.ct_con_alloc (CPtr.handle 1),
       Call.ct_con_props (CPtr.handle 2) 34 9100 (CPtr.goString "sa") (-9) CPtr.null,
       Call.ct_con_props (CPtr.handle 2) 34 9101 (CPtr.goString "secret") (-9) CPtr.null,
       Call.CString "",
       Call.ct_connect (CPtr.handle 2) (CPtr.cstr "") (-9),
       Call.free (CPtr.goString "secret"),
       Call.free (CPtr.goString "sa")] := by
  refine ⟨rfl, ?_, ?_, ?_⟩ <;> decide

/-! ## Statement names -/

/-- C4, as stated, fails: two `Prepare` calls on one connection, for two query
texts, both succeed with no `statement.Close` in between, and both pass the
name `myquery` to `ct_dynamic` with `CS_PREPARE` (717). -/
theorem Prepare_twice_same_name :
    (connection.Prepare sybase nativeAllSucceed { conn := CPtr.handle 2 } "SELECT 1").1 =
      .ok { query := "SELECT 1", stmt := CPtr.null, conn := CPtr.handle 2, Ok := false } ∧
    (connection.Prepare sybase
        (connection.Prepare sybase nativeAllSucceed { conn := CPtr.handle 2 } "SELECT 1").2
        { conn := CPtr.handle 2 } "SELECT 2").1 =
      .ok { query := "SELECT 2", stmt := CPtr.null, conn := CPtr.handle 2, Ok := false } ∧
    (connection.Prepare sybase
        (connection.Prepare sybase nativeAllSucceed { conn := CPtr.handle 2 } "SELECT 1").2
        { conn := CPtr.handle 2 } "SELECT 2").2.trace =
      [Call.CString "SELECT 1", Call.CString "myquery",
       Call.ct_dynamic CPtr.null 717 (CPtr.cstr "myquery") (-9) (CPtr.cstr "SELECT 1") (-9),
       Call.free (CPtr.cstr "myquery"), Call.free (CPtr.cstr "SELECT 1"),
       Call.CString "SELECT 2", Call.CString "myquery",
       Call.ct_dynamic CPtr.null 717 (CPtr.cstr "myquery") (-9) (CPtr.cstr "SELECT 2") (-9),
       Call.free (CPtr.cstr "myquery"), Call.free (CPtr.cstr "SELECT 2")] := by
  refine ⟨rfl, rfl, ?_⟩
  decide

/-- C4, amended. Every `Prepare` passes the fixed name `myquery` to `ct_dynamic`
with `CS_PREPARE`, whatever the connection, the query text and the statuses:
two `Prepare` calls on a connection with no `statement.Close` in between make
exactly the calls below, in which both names are `myquery`. -/
theorem Prepare_name_is_fixed (hdr : CtPublic) (w : Native) (c : connection)
    (q₁ q₂ : String) :
    (connection.Prepare hdr w c q₁).2.trace =
      w.trace ++
        [Call.CString q₁, Call.CString "myquery",
         Call.ct_dynamic CPtr.null hdr.CS_PREPARE (CPtr.cstr "myquery") hdr.CS_NULLTERM
           (CPtr.cstr q₁) hdr.CS_NULLTERM,
         Call.free (CPtr.cstr "myquery"), Call.free (CPtr.cstr q₁)] ∧
    (connection.Prepare hdr (connection.Prepare hdr w c q₁).2 c q₂).2.trace =
      w.trace ++
        [Call.CString q₁, Call.CString "myquery",
         Call.ct_dynamic CPtr.null hdr.CS_PREPARE (CPtr.cstr "myquery") hdr.CS_NULLTERM
           (CPtr.cstr q₁) hdr.CS_NULLTERM,
         Call.free (CPtr.cstr "myquery"), Call.free (CPtr.cstr q₁),
         Call.CString q₂, Call.CString "myquery",
         Call.ct_dynamic CPtr.null hdr.CS_PREPARE (CPtr.cstr "myquery") hdr.CS_NULLTERM
           (CPtr.cstr q₂) hdr.CS_NULLTERM,
         Call.free (CPtr.cstr "myquery"), Call.free (CPtr.cstr q₂)] := by
  have key : ∀ (v : Native) (q : String), (connection.Prepare hdr v c q).2.trace =
      v.trace ++
        [Call.CString q, Call.CString "myquery",
         Call.ct_dynamic CPtr.null hdr.CS_PREPARE (CPtr.cstr "myquery") hdr.CS_NULLTERM
           (CPtr.cstr q) hdr.CS_NULLTERM,
         Call.free (CPtr.cstr "myquery"), Call.free (CPtr.cstr q)] := by
    intro v q
    simp only [connection.Prepare, C.CString, C.free, Native.call, Native.record]
    split <;> simp
  refine ⟨key w q₁, ?_⟩
  rw [key, key]
  simp

end GoAse
